import Mathlib

/-!
Verification of the raton flight-deal checker core against its source.

The development shallowly embeds the modules `raton/models/base.py`,
`raton/models/flight.py`, `raton/models/preferences.py`,
`raton/models/mappers.py`, `raton/services/rules.py`,
`raton/services/amadeus.py` (search result handling) and
`raton/services/orchestrator.py`.

Modelling conventions:
* Python `Decimal` values are embedded as `ℚ` (exact decimal arithmetic is a
  subset of exact rational arithmetic; every `Decimal` literal appearing in
  the program denotes a rational, and `<=` on `Decimal` is the rational
  order restricted to decimals).
* Python `timedelta` durations are embedded as whole seconds.  Every
  duration the program builds comes from `parse_iso8601_duration`, i.e.
  from non-negative integer hour/minute/second fields, so `Nat` seconds
  model them exactly.
* Python `int` counters are embedded as `Int`.
* `datetime` / `date` values are carried as opaque strings: the program
  only moves them around; no claim inspects their structure.
* Fallible Python code is embedded with `Except`; an uncaught Python
  exception is an `Except.error` value.
-/

namespace Raton

/-- Durations (Python `timedelta`) measured in whole seconds. -/
abbrev Duration := Nat

/-! ## models/base.py -/

/-- base.py: `class CabinClass(str, Enum)`. -/
inductive CabinClass
  | economy
  | premium_economy
  | business
  | first
deriving DecidableEq, Repr

/-- base.py: `class TripType(str, Enum)`. -/
inductive TripType
  | one_way
  | round_trip
deriving DecidableEq, Repr

/-- The `.value` string of the `str`-backed enum `TripType`
(the orchestrator compares against it at orchestrator.py line 127). -/
def TripType.value : TripType → String
  | .one_way => "one_way"
  | .round_trip => "round_trip"

/-- base.py: `class StopPreference(str, Enum)`. -/
inductive StopPreference
  | any
  | direct_only
  | max_one_stop
deriving DecidableEq, Repr

/-! ## models/flight.py -/

/-- flight.py: `FlightSegment`.  Timestamps are opaque strings here (the
program never computes with them). -/
structure FlightSegment where
  departure_airport : String
  departure_time : String
  departure_terminal : Option String
  arrival_airport : String
  arrival_time : String
  arrival_terminal : Option String
  airline : String
  flight_number : String
  aircraft : Option String
  duration : Duration
deriving DecidableEq, Repr

/-- flight.py: `Price` — monetary amounts are exact decimals (`ℚ` here). -/
structure Price where
  total : ℚ
  currency : String
  base : ℚ
  fees : ℚ
deriving DecidableEq, Repr

/-- flight.py: `Itinerary`.  The pydantic constraint
`segments: Field(min_length=1)` is a construction-time validation; the
mapper model enforces it where the source constructs itineraries. -/
structure Itinerary where
  segments : List FlightSegment
deriving DecidableEq, Repr

/-- flight.py line 85: `stops = len(self.segments) - 1` (Python `int`). -/
def Itinerary.stops (it : Itinerary) : Int :=
  (it.segments.length : Int) - 1

/-- flight.py line 95: the sum of the segment durations. -/
def Itinerary.total_duration (it : Itinerary) : Duration :=
  (it.segments.map FlightSegment.duration).sum

/-- flight.py: `FlightOffer`. -/
structure FlightOffer where
  id : String
  itineraries : List Itinerary
  price : Price
  validating_airline : String
deriving DecidableEq, Repr

/-- flight.py line 121: `len(self.itineraries) > 1`. -/
def FlightOffer.is_round_trip (f : FlightOffer) : Bool :=
  f.itineraries.length > 1

/-- flight.py line 133: sum of the itinerary durations. -/
def FlightOffer.total_duration (f : FlightOffer) : Duration :=
  (f.itineraries.map Itinerary.total_duration).sum

/-- flight.py line 143: `sum(itinerary.stops for itinerary in self.itineraries)`. -/
def FlightOffer.total_stops (f : FlightOffer) : Int :=
  (f.itineraries.map Itinerary.stops).sum

/-! ## models/preferences.py -/

/-- preferences.py: `Route` (the `origin != destination` validator is a
construction-time check no claim depends on). -/
structure Route where
  origin : String
  destination : String
deriving DecidableEq, Repr

/-- preferences.py: `DateRange`; dates are opaque strings here. -/
structure DateRange where
  earliest : String
  latest : String
deriving DecidableEq, Repr

/-- preferences.py lines 85-92: the fields `UserPreferences` actually
declares — `routes`, `date_range`, `max_price`, `currency`, `passengers`,
`cabin_class`, `stop_preference`, `trip_type`.  Note that the class
declares NO `max_duration` field, although `rules.py` reads
`prefs.max_duration` and the test suite constructs preferences with it. -/
structure UserPreferences where
  routes : List Route
  date_range : DateRange
  max_price : ℚ
  currency : String
  passengers : Nat
  cabin_class : CabinClass
  stop_preference : StopPreference
  trip_type : TripType
deriving DecidableEq, Repr

/-- Modelled from the spec: spec §3 gives `UserPreferences` an "optional
`max_duration`", the duration rule in rules.py reads `prefs.max_duration`
and the tests construct preferences with `max_duration=timedelta(...)` and
expect a `None` default — but preferences.py omits the field.  This record
is the preference shape that rules.py's `check_duration` is written
against: the declared fields plus the optional `max_duration`. -/
structure UserPreferencesIntended extends UserPreferences where
  max_duration : Option Duration
deriving DecidableEq, Repr

/-! ## services/rules.py -/

/-- rules.py: `MatchResult` (Python tuples of strings become lists). -/
structure MatchResult where
  is_match : Bool
  passed_reasons : List String
  failed_reasons : List String
deriving DecidableEq, Repr

/-- rules.py lines 45-60: the currency rule. -/
def check_currency (flight : FlightOffer) (prefs : UserPreferences) : Bool × String :=
  if flight.price.currency = prefs.currency then
    (true, "Currency matches (" ++ prefs.currency ++ ")")
  else
    (false, "Currency mismatch: flight is " ++ flight.price.currency ++
      ", expected " ++ prefs.currency)

/-- rules.py lines 63-81: the price rule (`<=` on exact decimals). -/
def check_price (flight : FlightOffer) (prefs : UserPreferences) : Bool × String :=
  if flight.price.total ≤ prefs.max_price then
    (true, "Price " ++ toString flight.price.total ++ " " ++ flight.price.currency ++
      " is within budget of " ++ toString prefs.max_price)
  else
    (false, "Price " ++ toString flight.price.total ++ " " ++ flight.price.currency ++
      " exceeds max " ++ toString prefs.max_price)

/-- rules.py lines 84-108: the stops rule, matching on `prefs.stop_preference`. -/
def check_stops (flight : FlightOffer) (prefs : UserPreferences) : Bool × String :=
  let total_stops := flight.total_stops
  match prefs.stop_preference with
  | .any =>
    (true, "Any stops allowed (" ++ toString total_stops ++ " stops)")
  | .direct_only =>
    if total_stops = 0 then (true, "Direct flight as required")
    else (false, "Flight has " ++ toString total_stops ++ " stops, but direct only required")
  | .max_one_stop =>
    if total_stops ≤ 1 then
      (true, "Flight has " ++ toString total_stops ++ " stops (max 1 allowed)")
    else (false, "Flight has " ++ toString total_stops ++ " stops, but max 1 allowed")

/-- Render a duration the way Python formats a sub-day `timedelta`
(`"5:30:00"`).  Only used inside human-readable reason strings; no theorem
depends on this text. -/
def durToString (d : Duration) : String :=
  let pad := fun (n : Nat) => if n < 10 then "0" ++ toString n else toString n
  toString (d / 3600) ++ ":" ++ pad (d % 3600 / 60) ++ ":" ++ pad (d % 60)

/-- rules.py lines 111-127, as written: the duration rule reads the
optional `prefs.max_duration`, so it is typed against the preference shape
that actually has the field (`UserPreferencesIntended`). -/
def check_duration (flight : FlightOffer) (prefs : UserPreferencesIntended) : Bool × String :=
  match prefs.max_duration with
  | none => (true, "No duration limit specified")
  | some md =>
    if flight.total_duration ≤ md then
      (true, "Duration " ++ durToString flight.total_duration ++
        " is within limit of " ++ durToString md)
    else
      (false, "Duration " ++ durToString flight.total_duration ++
        " exceeds max " ++ durToString md)

/-- An uncaught Python exception that the service layer does not convert. -/
inductive PyErr
  | attributeError (attr : String)
deriving DecidableEq, Repr

/-- rules.py `check_duration` as executed on the `UserPreferences`
objects the program actually constructs: the class declares no
`max_duration` field (preferences.py lines 85-92), pydantic v2 drops the
unknown constructor argument (default `extra` handling) and raises
`AttributeError` on attribute access; the very first expression of the
rule body is `prefs.max_duration`, so every call raises before producing a
`(passed, reason)` pair. -/
def check_duration_src (_ : FlightOffer) (_ : UserPreferences) :
    Except PyErr (Bool × String) :=
  Except.error (.attributeError "max_duration")

/-- The loop body of `evaluate_flight` (rules.py lines 153-158): append
the reason of one rule outcome to the passed or the failed bucket. -/
def bucket (acc : List String × List String) (result : Bool × String) :
    List String × List String :=
  if result.1 then (acc.1 ++ [result.2], acc.2) else (acc.1, acc.2 ++ [result.2])

/-- rules.py lines 130-164 `evaluate_flight`, as executed: the fixed rule
list `[check_currency, check_price, check_stops, check_duration]` is run
in order, bucketing each reason; the fourth rule is `check_duration_src`
(it raises, see there), so the loop never completes. -/
def evaluate_flight_src (flight : FlightOffer) (prefs : UserPreferences) :
    Except PyErr MatchResult := do
  let acc1 := bucket ([], []) (check_currency flight prefs)
  let acc2 := bucket acc1 (check_price flight prefs)
  let acc3 := bucket acc2 (check_stops flight prefs)
  let r4 ← check_duration_src flight prefs
  let acc4 := bucket acc3 r4
  pure { is_match := acc4.2.length == 0
         passed_reasons := acc4.1
         failed_reasons := acc4.2 }

/-- rules.py lines 130-164 `evaluate_flight` over the preference shape
that has the `max_duration` field (the shape the module was written
against): all four rules in order, no short-circuiting,
`is_match = (len(failed) == 0)`. -/
def evaluate_flight (flight : FlightOffer) (prefs : UserPreferencesIntended) :
    MatchResult :=
  let acc1 := bucket ([], []) (check_currency flight prefs.toUserPreferences)
  let acc2 := bucket acc1 (check_price flight prefs.toUserPreferences)
  let acc3 := bucket acc2 (check_stops flight prefs.toUserPreferences)
  let acc4 := bucket acc3 (check_duration flight prefs)
  { is_match := acc4.2.length == 0
    passed_reasons := acc4.1
    failed_reasons := acc4.2 }

/-! ## models/mappers.py — ISO 8601 duration parsing

mappers.py line 17 compiles the pattern
`^PT(?:(\d+)H)?(?:(\d+)M)?(?:(\d+)S)?$` and line 43 applies it with
`re.match`.  The pattern is embedded as a deterministic maximal-munch
descent, which is equivalent to the backtracking regex: shortening a
`\d+` run leaves a digit at the front of the remainder, and a digit can
match neither a group letter nor the `$` anchor, so only the maximal digit
run can ever lead to a match; and skipping a present `(\d+)X` group leaves
that digit run in front of the later groups and the anchor, which then
fail, so group-present is tried exactly when it can succeed.  The
pattern is a `str` pattern without `re.ASCII`, so `\d` matches every
Unicode decimal digit (category `Nd`), and `int(...)` reads those digits
by their decimal value; both are modelled below via the `Nd` run table. -/

/-- The first code points (the digit-zero characters) of every run of
the Unicode decimal-digit category `Nd` (Unicode 14.0, the table CPython
ships); each run is ten consecutive code points with digit values 0-9.
`\d` in a `str` pattern matches exactly these characters. -/
def ndZeroBases : List Nat :=
  [0x30, 0x660, 0x6f0, 0x7c0, 0x966, 0x9e6, 0xa66, 0xae6,
   0xb66, 0xbe6, 0xc66, 0xce6, 0xd66, 0xde6, 0xe50, 0xed0,
   0xf20, 0x1040, 0x1090, 0x17e0, 0x1810, 0x1946, 0x19d0, 0x1a80,
   0x1a90, 0x1b50, 0x1bb0, 0x1c40, 0x1c50, 0xa620, 0xa8d0, 0xa900,
   0xa9d0, 0xa9f0, 0xaa50, 0xabf0, 0xff10, 0x104a0, 0x10d30, 0x11066,
   0x110f0, 0x11136, 0x111d0, 0x112f0, 0x11450, 0x114d0, 0x11650, 0x116c0,
   0x11730, 0x118e0, 0x11950, 0x11c50, 0x11d50, 0x11da0, 0x16a60, 0x16ac0,
   0x16b50, 0x1d7ce, 0x1d7d8, 0x1d7e2, 0x1d7ec, 0x1d7f6, 0x1e140, 0x1e2f0,
   0x1e950, 0x1fbf0]

/-- Python's `\d` on a `str` pattern: membership in the Unicode `Nd`
category. -/
def isPyDigit (c : Char) : Bool :=
  ndZeroBases.any fun b => b ≤ c.toNat ∧ c.toNat < b + 10

/-- The decimal value of one `Nd` digit, as `int(...)` reads it (its
offset inside its run); `0` on non-digits, which the regex groups never
contain. -/
def pyDigitVal (c : Char) : Nat :=
  match ndZeroBases.find? (fun b => b ≤ c.toNat ∧ c.toNat < b + 10) with
  | some b => c.toNat - b
  | none => 0

/-- One optional group `(?:(\d+)X)?` of the duration pattern at the
current position: it participates exactly when a non-empty maximal
decimal-digit run (`\d+`) followed by the letter `X` is present;
otherwise the position is left unchanged. -/
def parseGroup (letter : Char) (l : List Char) : Option (List Char) × List Char :=
  let ds := l.takeWhile isPyDigit
  let r := l.dropWhile isPyDigit
  if r.head? = some letter ∧ ds ≠ [] then (some ds, r.tail)
  else (none, l)

/-- Python `re` end anchor `$`: it matches at the very end of the string
or just before a newline that is the last character. -/
def atDollar (l : List Char) : Bool :=
  match l with
  | [] => true
  | [c] => c = '\n'
  | _ => false

/-- Numeric value of a regex digit group as `int(...)` reads it — base-10
over the digits' Unicode decimal values; the mapper turns a missing group
into `0` via `match.group(i) or 0`. -/
def digitsToNat (l : List Char) : Nat :=
  l.foldl (fun a c => 10 * a + pyDigitVal c) 0

/-- `_ISO8601_DURATION_PATTERN.match`: the literal prefix `PT`, then the
three optional digit groups in fixed `H`, `M`, `S` order, then the `$`
anchor.  Returns the three captured groups on a match. -/
def matchIsoDuration (l : List Char) :
    Option (Option (List Char) × Option (List Char) × Option (List Char)) :=
  match l with
  | p :: t :: rest =>
    if p = 'P' ∧ t = 'T' then
      let p1 := parseGroup 'H' rest
      let p2 := parseGroup 'M' p1.2
      let p3 := parseGroup 'S' p2.2
      if atDollar p3.2 then some (p1.1, p2.1, p3.1) else none
    else none
  | _ => none

/-- mappers.py lines 20-54 `parse_iso8601_duration`: the `ValueError` on a
failed match becomes `Except.error`;
`timedelta(hours=h, minutes=m, seconds=s)` becomes whole seconds. -/
def parse_iso8601_duration (s : String) : Except String Duration :=
  match matchIsoDuration s.data with
  | none =>
    Except.error ("Invalid ISO 8601 duration format: " ++ s ++
      ". Expected format: PT[hours]H[minutes]M[seconds]S")
  | some (h, m, sec) =>
    Except.ok (digitsToNat (h.getD []) * 3600 + digitsToNat (m.getD []) * 60 +
      digitsToNat (sec.getD []))

/-! ## models/mappers.py — offer mapping

Raw wire shapes, as consumed by `amadeus_to_flight_offer`.  Modelling
choices: the `price.fees` key may be absent (`.get("fees", [])`), hence
`Option`; fee `amount`, price `total` and `base` strings are carried as
the exact decimals they denote (their `Decimal(...)` parse is not
claim-relevant); segment `duration` stays a raw string because its parse
is claim-relevant; timestamps are opaque strings; the optional
`aircraft.code` is `some` exactly when the raw segment has an `aircraft`
object with a `code` key. -/

structure RawSegment where
  departure_code : String
  departure_at : String
  departure_terminal : Option String
  arrival_code : String
  arrival_at : String
  arrival_terminal : Option String
  carrierCode : String
  number : String
  aircraft_code : Option String
  duration : String
deriving DecidableEq, Repr

structure RawItinerary where
  segments : List RawSegment
deriving DecidableEq, Repr

structure RawFee where
  amount : ℚ
deriving DecidableEq, Repr

structure RawPrice where
  currency : String
  total : ℚ
  base : ℚ
  fees : Option (List RawFee)
deriving DecidableEq, Repr

structure RawOffer where
  id : String
  itineraries : List RawItinerary
  price : RawPrice
  validatingAirlineCodes : List String
deriving DecidableEq, Repr

/-- The ways `amadeus_to_flight_offer` can raise: a `ValueError` from
`parse_iso8601_duration`, an `IndexError` from
`validatingAirlineCodes[0]`, or a pydantic `ValidationError` from the
`min_length=1` constraints of `Itinerary` / `FlightOffer`.  None of these
is an `AmadeusError` (services/exceptions.py). -/
inductive MapErr
  | invalidDuration (s : String)
  | emptyValidatingAirlines
  | validationError
deriving DecidableEq, Repr

/-- mappers.py lines 92-121: build one `FlightSegment` from a raw segment
(the duration parse at line 98 can raise). -/
def mapSegment (seg : RawSegment) : Except MapErr FlightSegment :=
  match parse_iso8601_duration seg.duration with
  | .error _ => .error (.invalidDuration seg.duration)
  | .ok d =>
    .ok { departure_airport := seg.departure_code
          departure_time := seg.departure_at
          departure_terminal := seg.departure_terminal
          arrival_airport := seg.arrival_code
          arrival_time := seg.arrival_at
          arrival_terminal := seg.arrival_terminal
          airline := seg.carrierCode
          flight_number := seg.number
          aircraft := seg.aircraft_code
          duration := d }

/-- mappers.py lines 90-124: one itinerary; `Itinerary(segments=segments)`
validates `min_length=1`. -/
def mapItinerary (itin : RawItinerary) : Except MapErr Itinerary :=
  match itin.segments.mapM mapSegment with
  | .error e => .error e
  | .ok segs =>
    if segs.isEmpty then .error .validationError
    else .ok { segments := segs }

/-- mappers.py lines 57-149 `amadeus_to_flight_offer`: itineraries first,
then the fee sum `Decimal("0") + ...` over `price.get("fees", [])`, the
`Price`, the first validating airline code (`[0]` raises on an empty
list), and finally the validated `FlightOffer`. -/
def amadeus_to_flight_offer (raw : RawOffer) : Except MapErr FlightOffer :=
  match raw.itineraries.mapM mapItinerary with
  | .error e => .error e
  | .ok itins =>
    let total_fees := (raw.price.fees.getD []).foldl (fun acc fee => acc + fee.amount) 0
    let price : Price :=
      { total := raw.price.total
        currency := raw.price.currency
        base := raw.price.base
        fees := total_fees }
    match raw.validatingAirlineCodes with
    | [] => .error .emptyValidatingAirlines
    | va :: _ =>
      if itins.isEmpty then .error .validationError
      else .ok { id := raw.id, itineraries := itins, price := price,
                 validating_airline := va }

/-! ## C7 support: the accepted duration texts, characterized -/

/-- Text contributed by one optional regex group: nothing when the group
is absent, its digits followed by its letter when present. -/
def groupText (g : Option (List Char)) (letter : Char) : List Char :=
  match g with
  | none => []
  | some ds => ds ++ [letter]

/-- The texts matched by `_ISO8601_DURATION_PATTERN`: `PT`, the optional
groups in `H`, `M`, `S` order, then the end of the input, allowing one
trailing newline (the Python `$` anchor). -/
def durationText (h m s : Option (List Char)) (nl : Bool) : List Char :=
  'P' :: 'T' :: (groupText h 'H' ++ (groupText m 'M' ++ (groupText s 'S' ++
    (if nl then ['\n'] else []))))

/-- A well-formed captured group: absent, or a non-empty ASCII digit run. -/
def goodGroup : Option (List Char) → Bool
  | none => true
  | some ds => !ds.isEmpty && ds.all isPyDigit

/-! ## services/exceptions.py — collaborator error taxonomies -/

/-- services/exceptions.py: the `AmadeusError` subtypes produced by the
`try`/`except` of `search_flights` (auth for 401/403, rate limit for 429,
network, generic API error). -/
inductive AmadeusError
  | auth
  | rateLimit
  | network
  | api
deriving DecidableEq, Repr

/-- services/exceptions.py: `PreferencesNotFoundError` / `PreferencesStorageError`. -/
inductive PreferencesError
  | notFound
  | storage
deriving DecidableEq, Repr

/-- services/exceptions.py: the `TelegramError` subtypes. -/
inductive TelegramError
  | auth
  | chatNotFound
  | delivery
  | network
deriving DecidableEq, Repr

/-! ## services/amadeus.py — search_flights -/

/-- The argument tuple of `AmadeusClient.search_flights`; `non_stop` and
`max_results` keep their declared defaults at the orchestrator's call
site, which passes only the six named arguments. -/
structure SearchParams where
  origin : String
  destination : String
  departure_date : String
  adults : Nat
  return_date : Option String
  cabin_class : Option CabinClass
  non_stop : Bool := false
  max_results : Nat := 10
deriving DecidableEq, Repr

/-- How `search_flights` can fail as seen by its caller: an SDK/API
failure translated to an `AmadeusError` subtype inside the `try`/`except`
(amadeus.py lines 138-158), or an exception raised while mapping the
response offers — the list comprehension at amadeus.py line 160 sits
OUTSIDE the `try`, so a `MapErr` leaves `search_flights` untranslated and
is not an `AmadeusError`. -/
inductive SearchFailure
  | amadeus (e : AmadeusError)
  | mapping (e : MapErr)
deriving DecidableEq, Repr

/-- amadeus.py lines 79-160 `search_flights`, parameterized by the
outcome of the underlying SDK request (`api`): a request failure raises
the translated `AmadeusError`; on success every raw offer of the response
is mapped by `amadeus_to_flight_offer` and any mapping failure
propagates. -/
def search_flights (api : SearchParams → Except AmadeusError (List RawOffer))
    (params : SearchParams) : Except SearchFailure (List FlightOffer) :=
  match api params with
  | .error e => .error (.amadeus e)
  | .ok raws =>
    match raws.mapM amadeus_to_flight_offer with
    | .error e => .error (.mapping e)
    | .ok offers => .ok offers

/-! ## services/orchestrator.py -/

/-- results.py: `CheckResult` — six Python `int` counters. -/
structure CheckResult where
  users_checked : Int
  routes_searched : Int
  flights_found : Int
  deals_matched : Int
  notifications_sent : Int
  errors : Int
deriving DecidableEq, Repr

/-- The exceptions that can escape `run_check_cycle`: a mapping failure
surfacing through `search_flights` (the `except` at orchestrator.py line
133 catches only `AmadeusError`), or the `AttributeError` raised by
`evaluate_flight` (the missing `max_duration` field; nothing catches it). -/
inductive CycleErr
  | mapping (e : MapErr)
  | attributeError
deriving DecidableEq, Repr

/-- The orchestrator's collaborators as pure outcome assignments: the
user list returned by `PreferencesRepository.list_users`, the per-user
outcome of `.load`, the SDK outcome behind `search_flights`, and the
outcome of `TelegramNotifier.send_flight_deal`. -/
structure Collaborators where
  chat_ids : List Int
  load : Int → Except PreferencesError UserPreferences
  api : SearchParams → Except AmadeusError (List RawOffer)
  notify : Int → FlightOffer → MatchResult → Except TelegramError Unit

/-- The six counters of `run_check_cycle`, plus the trace of
`search_flights` invocations made so far (instrumentation: the Python
code keeps no trace; it is recorded here so theorems can speak about the
arguments of the provider calls). -/
structure CycleState where
  users_checked : Int := 0
  routes_searched : Int := 0
  flights_found : Int := 0
  deals_matched : Int := 0
  notifications_sent : Int := 0
  errors : Int := 0
  trace : List SearchParams := []
deriving DecidableEq, Repr

/-- orchestrator.py lines 121-132: the argument tuple passed to
`search_flights` for one route of one user's preferences — the return
date is the date range's latest date exactly when
`prefs.trip_type.value == "round_trip"`, otherwise `None`. -/
def searchParamsFor (prefs : UserPreferences) (route : Route) : SearchParams :=
  { origin := route.origin
    destination := route.destination
    departure_date := prefs.date_range.earliest
    return_date :=
      if prefs.trip_type.value = "round_trip" then some prefs.date_range.latest
      else none
    adults := prefs.passengers
    cabin_class := some prefs.cabin_class }

/-- orchestrator.py lines 145-163: the loop over the flights of one
route.  Evaluation raises (see `evaluate_flight_src`), aborting the
cycle; on a match the deal counter is incremented and delivery is
attempted, a `TelegramError` incrementing `errors` and continuing. -/
def processFlights (c : Collaborators) (chat_id : Int) (prefs : UserPreferences) :
    List FlightOffer → CycleState → CycleState × Option CycleErr
  | [], st => (st, none)
  | flight :: rest, st =>
    match evaluate_flight_src flight prefs with
    | .error _ => (st, some .attributeError)
    | .ok mr =>
      if mr.is_match then
        let st1 := { st with deals_matched := st.deals_matched + 1 }
        match c.notify chat_id flight mr with
        | .ok _ =>
          processFlights c chat_id prefs rest
            { st1 with notifications_sent := st1.notifications_sent + 1 }
        | .error _ =>
          processFlights c chat_id prefs rest { st1 with errors := st1.errors + 1 }
      else processFlights c chat_id prefs rest st

/-- orchestrator.py lines 117-163: the loop over one user's routes; an
`AmadeusError` increments `errors` and continues with the next route; a
mapping failure escaping `search_flights` aborts the whole cycle. -/
def processRoutes (c : Collaborators) (chat_id : Int) (prefs : UserPreferences) :
    List Route → CycleState → CycleState × Option CycleErr
  | [], st => (st, none)
  | route :: rest, st =>
    let params := searchParamsFor prefs route
    let st1 := { st with routes_searched := st.routes_searched + 1,
                         trace := st.trace ++ [params] }
    match search_flights c.api params with
    | .error (.amadeus _) =>
      processRoutes c chat_id prefs rest { st1 with errors := st1.errors + 1 }
    | .error (.mapping e) => (st1, some (.mapping e))
    | .ok flights =>
      let st2 := { st1 with flights_found := st1.flights_found + flights.length }
      match processFlights c chat_id prefs flights st2 with
      | (st3, none) => processRoutes c chat_id prefs rest st3
      | (st3, some e) => (st3, some e)

/-- orchestrator.py lines 106-163: the loop over the users; a
`PreferencesError` on load increments `errors` without counting the user
and continues. -/
def processUsers (c : Collaborators) :
    List Int → CycleState → CycleState × Option CycleErr
  | [], st => (st, none)
  | chat_id :: rest, st =>
    match c.load chat_id with
    | .error _ => processUsers c rest { st with errors := st.errors + 1 }
    | .ok prefs =>
      let st1 := { st with users_checked := st.users_checked + 1 }
      match processRoutes c chat_id prefs prefs.routes st1 with
      | (st2, none) => processUsers c rest st2
      | (st2, some e) => (st2, some e)

/-- The `CheckResult` built from the final counters
(orchestrator.py lines 165-172). -/
def CycleState.toCheckResult (st : CycleState) : CheckResult :=
  { users_checked := st.users_checked
    routes_searched := st.routes_searched
    flights_found := st.flights_found
    deals_matched := st.deals_matched
    notifications_sent := st.notifications_sent
    errors := st.errors }

/-- orchestrator.py lines 70-175 `run_check_cycle`: the empty-user early
return of all zeros (lines 93-102), otherwise the user loop.  The result
is the cycle outcome — the aggregated `CheckResult`, or the uncaught
exception — paired with the recorded trace of provider invocations. -/
def run_check_cycle (c : Collaborators) :
    Except CycleErr CheckResult × List SearchParams :=
  if c.chat_ids.isEmpty then
    (.ok { users_checked := 0, routes_searched := 0, flights_found := 0,
           deals_matched := 0, notifications_sent := 0, errors := 0 }, [])
  else
    match processUsers c c.chat_ids {} with
    | (st, none) => (.ok st.toCheckResult, st.trace)
    | (st, some e) => (.error e, st.trace)

/-- The provider invocations one user contributes to a completed cycle:
none if the preference load fails, otherwise one per route, in list
order, with the arguments of `searchParamsFor`. -/
def userTrace (c : Collaborators) (u : Int) : List SearchParams :=
  match c.load u with
  | .error _ => []
  | .ok p => p.routes.map (searchParamsFor p)

/-- The provider invocations a fully completed cycle performs, over all
users in store order. -/
def expectedTrace (c : Collaborators) : List SearchParams :=
  c.chat_ids.flatMap (userTrace c)

/-! ## Concrete fixtures (mirroring the repository's test fixtures) -/

/-- A well-formed raw segment: JFK to LAX, direct, duration `PT5H30M`. -/
def rawSegGood : RawSegment :=
  { departure_code := "JFK", departure_at := "2026-03-15T08:00:00"
    departure_terminal := none
    arrival_code := "LAX", arrival_at := "2026-03-15T11:30:00"
    arrival_terminal := none
    carrierCode := "AA", number := "100", aircraft_code := none
    duration := "PT5H30M" }

/-- The same raw segment with a malformed duration string. -/
def rawSegBad : RawSegment := { rawSegGood with duration := "INVALID" }

/-- A well-formed matching raw offer (250 USD, direct). -/
def rawOfferGood : RawOffer :=
  { id := "offer-1"
    itineraries := [{ segments := [rawSegGood] }]
    price := { currency := "USD", total := 250, base := 200, fees := some [] }
    validatingAirlineCodes := ["AA"] }

/-- A raw offer whose only segment carries the malformed duration. -/
def rawOfferBad : RawOffer :=
  { rawOfferGood with id := "offer-2", itineraries := [{ segments := [rawSegBad] }] }

/-- The domain offer `rawOfferGood` maps to. -/
def offerGood : FlightOffer :=
  { id := "offer-1"
    itineraries :=
      [{ segments :=
          [{ departure_airport := "JFK", departure_time := "2026-03-15T08:00:00"
             departure_terminal := none
             arrival_airport := "LAX", arrival_time := "2026-03-15T11:30:00"
             arrival_terminal := none
             airline := "AA", flight_number := "100", aircraft := none
             duration := 19800 }] }]
    price := { total := 250, currency := "USD", base := 200, fees := 0 }
    validating_airline := "AA" }

/-- Preferences as the repository's `sample_preferences` fixture builds
them: one JFK-LAX route, 500 USD budget, defaults elsewhere. -/
def samplePrefs : UserPreferences :=
  { routes := [{ origin := "JFK", destination := "LAX" }]
    date_range := { earliest := "2026-03-01", latest := "2026-03-31" }
    max_price := 500, currency := "USD", passengers := 1
    cabin_class := .economy, stop_preference := .any, trip_type := .round_trip }

/-- Collaborator outcomes for C1: one user whose preferences load, one
route, the provider request succeeds and returns one raw offer whose
duration is malformed; notification delivery would succeed. -/
def collabC1 : Collaborators :=
  { chat_ids := [1]
    load := fun _ => .ok samplePrefs
    api := fun _ => .ok [rawOfferBad]
    notify := fun _ _ _ => .ok () }

/-- Collaborator outcomes for C2: identical to C1 except the response
batch holds the malformed offer followed by a perfectly well-formed,
matching sibling offer. -/
def collabC2 : Collaborators :=
  { chat_ids := [1]
    load := fun _ => .ok samplePrefs
    api := fun _ => .ok [rawOfferBad, rawOfferGood]
    notify := fun _ _ _ => .ok () }

/-! ## C9 support: counter invariants of the cycle state -/

/-- The counter facts C9 asserts, as an invariant of the cycle state. -/
def CounterInv (st : CycleState) : Prop :=
  0 ≤ st.users_checked ∧ 0 ≤ st.routes_searched ∧ 0 ≤ st.flights_found ∧
  0 ≤ st.deals_matched ∧ 0 ≤ st.notifications_sent ∧ 0 ≤ st.errors ∧
  st.notifications_sent ≤ st.deals_matched ∧ st.deals_matched ≤ st.flights_found

/-- Collaborator outcomes with no users at all (the early-return path). -/
def collabEmpty : Collaborators :=
  { chat_ids := []
    load := fun _ => .error .notFound
    api := fun _ => .error .network
    notify := fun _ _ _ => .error .delivery }

/-- The all-zero result of the empty cycle. -/
def zeroCheckResult : CheckResult :=
  { users_checked := 0, routes_searched := 0, flights_found := 0,
    deals_matched := 0, notifications_sent := 0, errors := 0 }

/-- Preferences with two routes, as loaded for the C8 counterexample. -/
def prefsTwoRoutes : UserPreferences :=
  { samplePrefs with routes := [{ origin := "JFK", destination := "LAX" },
                                { origin := "JFK", destination := "SFO" }] }

/-- Collaborator outcomes for the C8 counterexample: the single user's
preferences load with two routes, and every provider request returns the
one malformed raw offer. -/
def collabC8 : Collaborators :=
  { chat_ids := [1]
    load := fun _ => .ok prefsTwoRoutes
    api := fun _ => .ok [rawOfferBad]
    notify := fun _ _ _ => .ok () }

/-- Collaborator outcomes completing normally: one user, one route, a
successful search returning no offers. -/
def collabOkTrace : Collaborators :=
  { chat_ids := [7]
    load := fun _ => .ok samplePrefs
    api := fun _ => .ok []
    notify := fun _ _ _ => .ok () }

/-- A well-formed raw offer whose price object lacks the `fees` key. -/
def rawOfferNoFees : RawOffer :=
  { rawOfferGood with
    price := { currency := "USD", total := 250, base := 200, fees := none } }


/-! ## Theorems -/

/-! ## Claim theorems about the rule functions -/

/-- C5: for every flight offer and preferences, the price rule passes if
and only if `offer.price.total <= preferences.max_price` under the exact
decimal order; in particular a total exactly equal to `max_price` passes
and any larger total fails. -/
theorem check_price_passes_iff (f : FlightOffer) (p : UserPreferences) :
    (check_price f p).1 = true ↔ f.price.total ≤ p.max_price := by
  unfold check_price
  split <;> simp_all

/-- C6: the stops rule passes exactly according to `stop_preference`
(ANY always, DIRECT_ONLY iff `total_stops = 0`, MAX_ONE_STOP iff
`total_stops ≤ 1`), where `total_stops` is the sum over the itineraries of
`segment_count - 1`. -/
theorem check_stops_passes_iff (f : FlightOffer) (p : UserPreferences) :
    ((check_stops f p).1 = true ↔
      match p.stop_preference with
      | StopPreference.any => True
      | StopPreference.direct_only => f.total_stops = 0
      | StopPreference.max_one_stop => f.total_stops ≤ 1) ∧
    f.total_stops = (f.itineraries.map (fun it => (it.segments.length : Int) - 1)).sum := by
  refine ⟨?_, rfl⟩
  cases hp : p.stop_preference <;>
    simp only [check_stops, hp] <;>
    first
      | simp
      | (split <;> simp_all)

/-- Witness for C5 at a concrete input: the 250 USD offer against the
500 USD budget. -/
theorem check_price_passes_iff_witness :
    (check_price offerGood samplePrefs).1 = true ↔
      offerGood.price.total ≤ samplePrefs.max_price :=
  check_price_passes_iff offerGood samplePrefs

/-- Witness for C6 at a concrete input: the direct offer against the ANY
stop preference. -/
theorem check_stops_passes_iff_witness :
    ((check_stops offerGood samplePrefs).1 = true ↔
      match samplePrefs.stop_preference with
      | StopPreference.any => True
      | StopPreference.direct_only => offerGood.total_stops = 0
      | StopPreference.max_one_stop => offerGood.total_stops ≤ 1) ∧
    offerGood.total_stops =
      (offerGood.itineraries.map (fun it => (it.segments.length : Int) - 1)).sum :=
  check_stops_passes_iff offerGood samplePrefs

/-- C3 (code evaluation): on the preference objects the program builds,
the duration rule raises `AttributeError` on every input — the
`max_duration` field the spec and the tests give to `UserPreferences` is
missing from the class declaration. -/
theorem check_duration_src_raises (f : FlightOffer) (p : UserPreferences) :
    check_duration_src f p = Except.error (PyErr.attributeError "max_duration") :=
  rfl

/-- C4 (code evaluation): `evaluate_flight`, run on the preference objects
the program builds, raises `AttributeError` at the fourth rule on every
input and never returns a `MatchResult`. -/
theorem evaluate_flight_src_raises (f : FlightOffer) (p : UserPreferences) :
    evaluate_flight_src f p = Except.error (PyErr.attributeError "max_duration") :=
  rfl

theorem all_takeWhile (p : Char → Bool) (l : List Char) :
    (l.takeWhile p).all p = true := by
  simp only [List.all_eq_true]
  intro x hx
  exact List.mem_takeWhile_imp hx

theorem takeWhile_digits_append (ds : List Char) (c : Char) (r : List Char)
    (hall : ds.all isPyDigit = true) (hc : isPyDigit c = false) :
    (ds ++ c :: r).takeWhile isPyDigit = ds ∧
    (ds ++ c :: r).dropWhile isPyDigit = c :: r := by
  induction ds with
  | nil => simp [List.takeWhile_cons, List.dropWhile_cons, hc]
  | cons d ds ih =>
    simp only [List.all_cons, Bool.and_eq_true] at hall
    obtain ⟨h1, h2⟩ := ih hall.2
    simp [List.takeWhile_cons, List.dropWhile_cons, hall.1, h1, h2]

theorem parseGroup_present (letter : Char) (ds r : List Char)
    (hds : ds ≠ []) (hall : ds.all isPyDigit = true)
    (hletter : isPyDigit letter = false) :
    parseGroup letter (ds ++ letter :: r) = (some ds, r) := by
  obtain ⟨h1, h2⟩ := takeWhile_digits_append ds letter r hall hletter
  simp [parseGroup, h1, h2, hds]

theorem parseGroup_digits_other (letter c : Char) (ds r : List Char)
    (hall : ds.all isPyDigit = true) (hcdig : isPyDigit c = false)
    (hne : c ≠ letter) :
    parseGroup letter (ds ++ c :: r) = (none, ds ++ c :: r) := by
  obtain ⟨h1, h2⟩ := takeWhile_digits_append ds c r hall hcdig
  simp [parseGroup, h1, h2, hne]

theorem parseGroup_nil (letter : Char) : parseGroup letter [] = (none, []) := rfl

theorem parseGroup_inv (letter : Char) (l : List Char) :
    parseGroup letter l = (none, l) ∨
    ∃ ds r, ds ≠ [] ∧ ds.all isPyDigit = true ∧ l = ds ++ letter :: r ∧
      parseGroup letter l = (some ds, r) := by
  cases hdrop : l.dropWhile isPyDigit with
  | nil => left; simp [parseGroup, hdrop]
  | cons c r =>
    by_cases hc : c = letter ∧ l.takeWhile isPyDigit ≠ []
    · right
      refine ⟨l.takeWhile isPyDigit, r, hc.2, all_takeWhile _ _, ?_, ?_⟩
      · conv_lhs => rw [← List.takeWhile_append_dropWhile (p := isPyDigit) (l := l)]
        rw [hdrop, hc.1]
      · simp [parseGroup, hdrop, hc.1, hc.2]
    · left
      simp only [parseGroup, hdrop, List.head?_cons, Option.some.injEq]
      rw [if_neg]
      exact hc

theorem atDollar_inv (l : List Char) (h : atDollar l = true) :
    l = [] ∨ l = ['\n'] := by
  cases l with
  | nil => exact Or.inl rfl
  | cons c t =>
    cases t with
    | nil =>
      right
      unfold atDollar at h
      simp only [decide_eq_true_eq] at h
      rw [h]
    | cons d u => simp [atDollar] at h

theorem parseGroup_nlText (letter : Char) (nl : Bool) (hne : '\n' ≠ letter) :
    parseGroup letter (if nl then ['\n'] else []) =
      (none, if nl then ['\n'] else []) := by
  cases nl
  · rfl
  · simpa using parseGroup_digits_other letter '\n' [] [] rfl (by decide) hne

theorem goodGroup_some (ds : List Char) (h : goodGroup (some ds) = true) :
    ds ≠ [] ∧ ds.all isPyDigit = true := by
  cases ds with
  | nil => simp [goodGroup] at h
  | cons a t =>
    refine ⟨by simp, ?_⟩
    simpa [goodGroup] using h

theorem goodGroup_some_intro (ds : List Char) (hne : ds ≠ [])
    (hall : ds.all isPyDigit = true) : goodGroup (some ds) = true := by
  cases ds with
  | nil => exact absurd rfl hne
  | cons a t => simpa [goodGroup] using hall

theorem matchIsoDuration_sound (h m s : Option (List Char)) (nl : Bool)
    (gh : goodGroup h = true) (gm : goodGroup m = true) (gs : goodGroup s = true) :
    matchIsoDuration (durationText h m s nl) = some (h, m, s) := by
  have hdollar : atDollar (if nl then ['\n'] else []) = true := by
    cases nl <;> rfl
  have stepS : parseGroup 'S' (groupText s 'S' ++ (if nl then ['\n'] else [])) =
      (s, if nl then ['\n'] else []) := by
    cases s with
    | none => simpa [groupText] using parseGroup_nlText 'S' nl (by decide)
    | some ds =>
      obtain ⟨h1, h2⟩ := goodGroup_some ds gs
      simpa [groupText] using
        parseGroup_present 'S' ds (if nl then ['\n'] else []) h1 h2 (by decide)
  have stepM : parseGroup 'M'
      (groupText m 'M' ++ (groupText s 'S' ++ (if nl then ['\n'] else []))) =
      (m, groupText s 'S' ++ (if nl then ['\n'] else [])) := by
    cases m with
    | some ds =>
      obtain ⟨h1, h2⟩ := goodGroup_some ds gm
      simpa [groupText] using
        parseGroup_present 'M' ds (groupText s 'S' ++ (if nl then ['\n'] else []))
          h1 h2 (by decide)
    | none =>
      cases s with
      | some ds2 =>
        obtain ⟨h1, h2⟩ := goodGroup_some ds2 gs
        simpa [groupText] using
          parseGroup_digits_other 'M' 'S' ds2 (if nl then ['\n'] else [])
            h2 (by decide) (by decide)
      | none => simpa [groupText] using parseGroup_nlText 'M' nl (by decide)
  have stepH : parseGroup 'H'
      (groupText h 'H' ++ (groupText m 'M' ++ (groupText s 'S' ++
        (if nl then ['\n'] else [])))) =
      (h, groupText m 'M' ++ (groupText s 'S' ++ (if nl then ['\n'] else []))) := by
    cases h with
    | some ds =>
      obtain ⟨h1, h2⟩ := goodGroup_some ds gh
      simpa [groupText] using
        parseGroup_present 'H' ds
          (groupText m 'M' ++ (groupText s 'S' ++ (if nl then ['\n'] else [])))
          h1 h2 (by decide)
    | none =>
      cases m with
      | some ds2 =>
        obtain ⟨h1, h2⟩ := goodGroup_some ds2 gm
        simpa [groupText] using
          parseGroup_digits_other 'H' 'M' ds2
            (groupText s 'S' ++ (if nl then ['\n'] else []))
            h2 (by decide) (by decide)
      | none =>
        cases s with
        | some ds3 =>
          obtain ⟨h1, h2⟩ := goodGroup_some ds3 gs
          simpa [groupText] using
            parseGroup_digits_other 'H' 'S' ds3 (if nl then ['\n'] else [])
              h2 (by decide) (by decide)
        | none => simpa [groupText] using parseGroup_nlText 'H' nl (by decide)
  simp [matchIsoDuration, durationText, stepH, stepM, stepS, hdollar]

theorem parseGroup_inv' (letter : Char) (l : List Char) :
    ∃ g r, parseGroup letter l = (g, r) ∧ goodGroup g = true ∧
      l = groupText g letter ++ r := by
  rcases parseGroup_inv letter l with h | ⟨ds, r, hne, hall, heq, h⟩
  · exact ⟨none, l, h, rfl, by simp [groupText]⟩
  · exact ⟨some ds, r, h, goodGroup_some_intro ds hne hall,
      by simp [groupText, heq]⟩

theorem matchIsoDuration_complete (l : List Char) (h m s : Option (List Char))
    (hmatch : matchIsoDuration l = some (h, m, s)) :
    goodGroup h = true ∧ goodGroup m = true ∧ goodGroup s = true ∧
    ∃ nl, l = durationText h m s nl := by
  cases l with
  | nil => simp [matchIsoDuration] at hmatch
  | cons p t' =>
    cases t' with
    | nil => simp [matchIsoDuration] at hmatch
    | cons t rest =>
      simp only [matchIsoDuration] at hmatch
      by_cases hpt : p = 'P' ∧ t = 'T'
      case neg => rw [if_neg hpt] at hmatch; exact absurd hmatch (by simp)
      rw [if_pos hpt] at hmatch
      obtain ⟨gH, r1, eH, goodH, restEq⟩ := parseGroup_inv' 'H' rest
      obtain ⟨gM, r2, eM, goodM, r1Eq⟩ := parseGroup_inv' 'M' r1
      obtain ⟨gS, r3, eS, goodS, r2Eq⟩ := parseGroup_inv' 'S' r2
      simp only [eH, eM, eS] at hmatch
      cases hdollar : atDollar r3 with
      | false => rw [hdollar] at hmatch; exact absurd hmatch (by simp)
      | true =>
        rw [hdollar] at hmatch
        simp only [if_true, Option.some.injEq, Prod.mk.injEq] at hmatch
        obtain ⟨hh, hm, hs⟩ := hmatch
        subst hh; subst hm; subst hs
        refine ⟨goodH, goodM, goodS, ?_⟩
        rcases atDollar_inv r3 hdollar with h3 | h3
        · refine ⟨false, ?_⟩
          simp [durationText, hpt.1, hpt.2, restEq, r1Eq, r2Eq, h3]
        · refine ⟨true, ?_⟩
          simp [durationText, hpt.1, hpt.2, restEq, r1Eq, r2Eq, h3]

/-- C7 counterexample: the claim says parsing fails on trailing text, but
`re.match` with the `$` anchor tolerates one trailing newline, so
`"PT2H\n"` — trailing text after an otherwise valid duration — parses
successfully to two hours. -/
theorem parse_iso8601_duration_accepts_trailing_newline :
    parse_iso8601_duration "PT2H\n" = Except.ok 7200 := rfl

/-- C7 (amended): `parse_iso8601_duration` accepts exactly the texts
`PT` followed by optional non-empty digit groups `H`, `M`, `S` in this
fixed order and then the end of the input — where, exceptionally, one
trailing newline is tolerated (Python `re` `$` anchor) — and on success
returns 3600·hours + 60·minutes + seconds with missing groups counted as
zero; every other input fails with the format `ValueError`. -/
theorem parse_iso8601_duration_spec :
    (∀ s : String, (∃ d, parse_iso8601_duration s = Except.ok d) ↔
      ∃ h m g nl, goodGroup h = true ∧ goodGroup m = true ∧ goodGroup g = true ∧
        s.data = durationText h m g nl) ∧
    (∀ (s : String) (h m g : Option (List Char)) (nl : Bool),
      goodGroup h = true → goodGroup m = true → goodGroup g = true →
      s.data = durationText h m g nl →
      parse_iso8601_duration s =
        Except.ok (digitsToNat (h.getD []) * 3600 + digitsToNat (m.getD []) * 60 +
          digitsToNat (g.getD []))) := by
  have sound : ∀ (s : String) (h m g : Option (List Char)) (nl : Bool),
      goodGroup h = true → goodGroup m = true → goodGroup g = true →
      s.data = durationText h m g nl →
      parse_iso8601_duration s =
        Except.ok (digitsToNat (h.getD []) * 3600 + digitsToNat (m.getD []) * 60 +
          digitsToNat (g.getD [])) := by
    intro s h m g nl gh gm gg heq
    unfold parse_iso8601_duration
    rw [heq, matchIsoDuration_sound h m g nl gh gm gg]
  refine ⟨?_, sound⟩
  intro s
  constructor
  · rintro ⟨d, hd⟩
    unfold parse_iso8601_duration at hd
    cases hm : matchIsoDuration s.data with
    | none => rw [hm] at hd; exact absurd hd (by simp)
    | some trip =>
      obtain ⟨h, m, g⟩ := trip
      obtain ⟨gh, gm, gg, nl, heq⟩ := matchIsoDuration_complete _ _ _ _ hm
      exact ⟨h, m, g, nl, gh, gm, gg, heq⟩
  · rintro ⟨h, m, g, nl, gh, gm, gg, heq⟩
    exact ⟨_, sound s h m g nl gh gm gg heq⟩

/-- Witness for the C7 theorem at a concrete input: `"PT2H٥M"` — the
minutes group is the Arabic-Indic digit five (U+0665), an `Nd` digit
`\d` matches and `int(...)` reads as 5 — has the accepted shape and
parses to 2·3600 + 5·60 = 7500 seconds. -/
theorem parse_iso8601_duration_spec_witness :
    parse_iso8601_duration "PT2H٥M" = Except.ok 7500 :=
  parse_iso8601_duration_spec.2 "PT2H٥M"
    (some ['2']) (some ['٥']) none false
    (by decide) (by decide) (by decide) (by decide)

/-- C1: latent in `search_flights`, the mapping of the response offers
happens outside the `try`/`except`, and the orchestrator's route loop
catches only `AmadeusError` — so with one reachable provider outcome (a
successful request whose payload has one malformed duration) the
`ValueError` escapes `run_check_cycle` instead of a `CheckResult` being
returned, contradicting the claim and the method's own docstring. -/
theorem run_check_cycle_raises_on_mapping_failure :
    run_check_cycle collabC1 =
      (Except.error (CycleErr.mapping (MapErr.invalidDuration "INVALID")),
       [searchParamsFor samplePrefs { origin := "JFK", destination := "LAX" }]) :=
  rfl

/-- C2: a mapping failure on a single offer is NOT contained to that
offer — the whole cycle aborts with the uncaught `ValueError`, the errors
counter is never returned, and the well-formed sibling offer (which maps
fine, second conjunct) is never evaluated. -/
theorem run_check_cycle_mapping_not_offer_scoped :
    run_check_cycle collabC2 =
      (Except.error (CycleErr.mapping (MapErr.invalidDuration "INVALID")),
       [searchParamsFor samplePrefs { origin := "JFK", destination := "LAX" }]) ∧
    amadeus_to_flight_offer rawOfferGood = Except.ok offerGood :=
  ⟨rfl, rfl⟩

theorem processFlights_nil (c : Collaborators) (chat_id : Int)
    (prefs : UserPreferences) (st : CycleState) :
    processFlights c chat_id prefs [] st = (st, none) := rfl

/-- On any non-empty flight list the loop aborts at its first iteration:
`evaluate_flight` raises before any counter is touched. -/
theorem processFlights_cons (c : Collaborators) (chat_id : Int)
    (prefs : UserPreferences) (f : FlightOffer) (rest : List FlightOffer)
    (st : CycleState) :
    processFlights c chat_id prefs (f :: rest) st =
      (st, some CycleErr.attributeError) := rfl

theorem processRoutes_cons (c : Collaborators) (chat_id : Int)
    (prefs : UserPreferences) (route : Route) (rest : List Route) (st : CycleState) :
    processRoutes c chat_id prefs (route :: rest) st =
      (let st1 := { st with routes_searched := st.routes_searched + 1,
                            trace := st.trace ++ [searchParamsFor prefs route] }
       match search_flights c.api (searchParamsFor prefs route) with
       | .error (.amadeus _) =>
         processRoutes c chat_id prefs rest { st1 with errors := st1.errors + 1 }
       | .error (.mapping e) => (st1, some (.mapping e))
       | .ok flights =>
         let st2 := { st1 with flights_found := st1.flights_found + flights.length }
         match processFlights c chat_id prefs flights st2 with
         | (st3, none) => processRoutes c chat_id prefs rest st3
         | (st3, some e) => (st3, some e)) := rfl

theorem processUsers_cons (c : Collaborators) (u : Int) (rest : List Int)
    (st : CycleState) :
    processUsers c (u :: rest) st =
      (match c.load u with
       | .error _ => processUsers c rest { st with errors := st.errors + 1 }
       | .ok prefs =>
         match processRoutes c u prefs prefs.routes
             { st with users_checked := st.users_checked + 1 } with
         | (st2, none) => processUsers c rest st2
         | (st2, some e) => (st2, some e)) := rfl

theorem processRoutes_inv (c : Collaborators) (chat_id : Int)
    (prefs : UserPreferences) (routes : List Route) :
    ∀ st : CycleState, CounterInv st →
      CounterInv (processRoutes c chat_id prefs routes st).1 := by
  induction routes with
  | nil => intro st h; exact h
  | cons route rest ih =>
    intro st h
    obtain ⟨a1, a2, a3, a4, a5, a6, a7, a8⟩ := h
    rw [processRoutes_cons]
    dsimp only
    cases hs : search_flights c.api (searchParamsFor prefs route) with
    | error e =>
      cases e with
      | amadeus e2 =>
        apply ih
        dsimp only [CounterInv]
        omega
      | mapping e2 =>
        dsimp only [CounterInv]
        omega
    | ok flights =>
      dsimp only
      cases flights with
      | nil =>
        rw [processFlights_nil]
        dsimp only
        apply ih
        dsimp only [CounterInv]
        omega
      | cons f fs =>
        rw [processFlights_cons]
        dsimp only [CounterInv]
        omega

theorem processUsers_inv (c : Collaborators) (users : List Int) :
    ∀ st : CycleState, CounterInv st → CounterInv (processUsers c users st).1 := by
  induction users with
  | nil => intro st h; exact h
  | cons u rest ih =>
    intro st h
    obtain ⟨a1, a2, a3, a4, a5, a6, a7, a8⟩ := h
    rw [processUsers_cons]
    cases hl : c.load u with
    | error e =>
      apply ih
      dsimp only [CounterInv]
      omega
    | ok prefs =>
      dsimp only
      have hr := processRoutes_inv c u prefs prefs.routes
        { st with users_checked := st.users_checked + 1 }
        (by dsimp only [CounterInv]; omega)
      cases hp : processRoutes c u prefs prefs.routes
          { st with users_checked := st.users_checked + 1 } with
      | mk st2 e? =>
        rw [hp] at hr
        cases e? with
        | none => dsimp only; exact ih st2 hr
        | some e => dsimp only; exact hr

/-- C9: every `CheckResult` actually returned by `run_check_cycle`
satisfies `notifications_sent ≤ deals_matched ≤ flights_found` and all
six counters are non-negative, whatever the collaborators' outcomes. -/
theorem run_check_cycle_counter_bounds (c : Collaborators) (r : CheckResult)
    (t : List SearchParams) (h : run_check_cycle c = (Except.ok r, t)) :
    0 ≤ r.users_checked ∧ 0 ≤ r.routes_searched ∧ 0 ≤ r.flights_found ∧
    0 ≤ r.deals_matched ∧ 0 ≤ r.notifications_sent ∧ 0 ≤ r.errors ∧
    r.notifications_sent ≤ r.deals_matched ∧ r.deals_matched ≤ r.flights_found := by
  unfold run_check_cycle at h
  by_cases he : c.chat_ids.isEmpty
  · rw [if_pos he] at h
    simp only [Prod.mk.injEq, Except.ok.injEq] at h
    obtain ⟨hr, ht⟩ := h
    subst hr
    norm_num
  · rw [if_neg he] at h
    have hinv := processUsers_inv c c.chat_ids {} (by dsimp only [CounterInv]; omega)
    cases hp : processUsers c c.chat_ids {} with
    | mk st e? =>
      rw [hp] at hinv h
      cases e? with
      | none =>
        dsimp only at h hinv
        simp only [Prod.mk.injEq, Except.ok.injEq] at h
        obtain ⟨hr, ht⟩ := h
        subst hr
        exact hinv
      | some e => simp at h

/-- Witness for C9 at a concrete input: the empty cycle returns the
all-zero result, which satisfies all the bounds. -/
theorem run_check_cycle_counter_bounds_witness :
    0 ≤ zeroCheckResult.users_checked ∧ 0 ≤ zeroCheckResult.routes_searched ∧
    0 ≤ zeroCheckResult.flights_found ∧ 0 ≤ zeroCheckResult.deals_matched ∧
    0 ≤ zeroCheckResult.notifications_sent ∧ 0 ≤ zeroCheckResult.errors ∧
    zeroCheckResult.notifications_sent ≤ zeroCheckResult.deals_matched ∧
    zeroCheckResult.deals_matched ≤ zeroCheckResult.flights_found :=
  run_check_cycle_counter_bounds collabEmpty zeroCheckResult [] rfl

/-! ## C8 support: the trace of provider invocations -/

theorem processRoutes_trace_none (c : Collaborators) (chat_id : Int)
    (prefs : UserPreferences) (routes : List Route) :
    ∀ st st', processRoutes c chat_id prefs routes st = (st', none) →
      st'.trace = st.trace ++ routes.map (searchParamsFor prefs) := by
  induction routes with
  | nil =>
    intro st st' h
    simp only [processRoutes, Prod.mk.injEq] at h
    rw [← h.1]
    simp
  | cons route rest ih =>
    intro st st' h
    rw [processRoutes_cons] at h
    dsimp only at h
    cases hs : search_flights c.api (searchParamsFor prefs route) with
    | error e =>
      rw [hs] at h
      cases e with
      | amadeus e2 =>
        dsimp only at h
        have h2 := ih _ _ h
        rw [h2]
        simp
      | mapping e2 =>
        dsimp only at h
        simp only [Prod.mk.injEq] at h
        exact absurd h.2 (by simp)
    | ok flights =>
      rw [hs] at h
      dsimp only at h
      cases flights with
      | nil =>
        rw [processFlights_nil] at h
        dsimp only at h
        have h2 := ih _ _ h
        rw [h2]
        simp
      | cons f fs =>
        rw [processFlights_cons] at h
        dsimp only at h
        simp only [Prod.mk.injEq] at h
        exact absurd h.2 (by simp)

theorem processRoutes_trace_upto (c : Collaborators) (chat_id : Int)
    (prefs : UserPreferences) (routes : List Route) :
    ∀ st, ∃ tail, st.trace ++ routes.map (searchParamsFor prefs) =
      (processRoutes c chat_id prefs routes st).1.trace ++ tail := by
  induction routes with
  | nil =>
    intro st
    exact ⟨[], by simp [processRoutes]⟩
  | cons route rest ih =>
    intro st
    rw [processRoutes_cons]
    dsimp only
    cases hs : search_flights c.api (searchParamsFor prefs route) with
    | error e =>
      cases e with
      | amadeus e2 =>
        dsimp only
        obtain ⟨tail, ht⟩ := ih { st with
          routes_searched := st.routes_searched + 1,
          trace := st.trace ++ [searchParamsFor prefs route],
          errors := st.errors + 1 }
        refine ⟨tail, ?_⟩
        simpa using ht
      | mapping e2 =>
        dsimp only
        refine ⟨rest.map (searchParamsFor prefs), ?_⟩
        simp
    | ok flights =>
      dsimp only
      cases flights with
      | nil =>
        rw [processFlights_nil]
        dsimp only
        obtain ⟨tail, ht⟩ := ih { st with
          routes_searched := st.routes_searched + 1,
          flights_found := st.flights_found + (0 : Nat),
          trace := st.trace ++ [searchParamsFor prefs route] }
        refine ⟨tail, ?_⟩
        simpa using ht
      | cons f fs =>
        rw [processFlights_cons]
        dsimp only
        refine ⟨rest.map (searchParamsFor prefs), ?_⟩
        simp

theorem processUsers_trace_none (c : Collaborators) (users : List Int) :
    ∀ st st', processUsers c users st = (st', none) →
      st'.trace = st.trace ++ users.flatMap (userTrace c) := by
  induction users with
  | nil =>
    intro st st' h
    simp only [processUsers, Prod.mk.injEq] at h
    rw [← h.1]
    simp
  | cons u rest ih =>
    intro st st' h
    rw [processUsers_cons] at h
    cases hl : c.load u with
    | error e =>
      rw [hl] at h
      dsimp only at h
      have h2 := ih _ _ h
      rw [h2]
      simp [userTrace, hl]
    | ok prefs =>
      rw [hl] at h
      dsimp only at h
      cases hp : processRoutes c u prefs prefs.routes
          { st with users_checked := st.users_checked + 1 } with
      | mk st2 e? =>
        rw [hp] at h
        cases e? with
        | none =>
          dsimp only at h
          have h2 := ih _ _ h
          have h3 := processRoutes_trace_none c u prefs prefs.routes _ _ hp
          rw [h2, h3]
          simp [userTrace, hl]
        | some e =>
          dsimp only at h
          simp only [Prod.mk.injEq] at h
          exact absurd h.2 (by simp)

theorem processUsers_trace_upto (c : Collaborators) (users : List Int) :
    ∀ st, ∃ tail, st.trace ++ users.flatMap (userTrace c) =
      (processUsers c users st).1.trace ++ tail := by
  induction users with
  | nil =>
    intro st
    exact ⟨[], by simp [processUsers]⟩
  | cons u rest ih =>
    intro st
    rw [processUsers_cons]
    cases hl : c.load u with
    | error e =>
      dsimp only
      obtain ⟨tail, ht⟩ := ih { st with errors := st.errors + 1 }
      refine ⟨tail, ?_⟩
      simpa [userTrace, hl] using ht
    | ok prefs =>
      dsimp only
      cases hp : processRoutes c u prefs prefs.routes
          { st with users_checked := st.users_checked + 1 } with
      | mk st2 e? =>
        cases e? with
        | none =>
          dsimp only
          obtain ⟨tail, ht⟩ := ih st2
          have h3 := processRoutes_trace_none c u prefs prefs.routes _ _ hp
          refine ⟨tail, ?_⟩
          rw [← ht, h3]
          simp [userTrace, hl]
        | some e =>
          dsimp only
          have h4 := processRoutes_trace_upto c u prefs prefs.routes
            { st with users_checked := st.users_checked + 1 }
          rw [hp] at h4
          obtain ⟨tail, ht⟩ := h4
          dsimp only at ht
          refine ⟨tail ++ rest.flatMap (userTrace c), ?_⟩
          calc st.trace ++ (u :: rest).flatMap (userTrace c)
              = (st.trace ++ prefs.routes.map (searchParamsFor prefs)) ++
                  rest.flatMap (userTrace c) := by simp [userTrace, hl]
            _ = (st2.trace ++ tail) ++ rest.flatMap (userTrace c) := by rw [ht]
            _ = st2.trace ++ (tail ++ rest.flatMap (userTrace c)) := by simp

/-- C8 (amended): every provider invocation `run_check_cycle` performs
carries exactly the claimed arguments — the route's origin and
destination, the earliest date as departure, the latest date as return
iff `trip_type` is round-trip, the passenger count and the cabin class —
and in a cycle that completes (returns a `CheckResult`) the invocations
are exactly one per route per loadable user, in store order; a cycle
aborted by an escaping exception performs a prefix of them. -/
theorem run_check_cycle_provider_invocations (c : Collaborators) :
    (∃ tail, expectedTrace c = (run_check_cycle c).2 ++ tail) ∧
    (∀ r t, run_check_cycle c = (Except.ok r, t) → t = expectedTrace c) := by
  constructor
  · unfold run_check_cycle
    by_cases he : c.chat_ids.isEmpty
    · rw [if_pos he]
      exact ⟨expectedTrace c, by simp⟩
    · rw [if_neg he]
      have hpre := processUsers_trace_upto c c.chat_ids ({} : CycleState)
      cases hp : processUsers c c.chat_ids {} with
      | mk st e? =>
        rw [hp] at hpre
        obtain ⟨tail, ht⟩ := hpre
        dsimp only at ht
        cases e? with
        | none => exact ⟨tail, by dsimp only; simpa [expectedTrace] using ht⟩
        | some e => exact ⟨tail, by dsimp only; simpa [expectedTrace] using ht⟩
  · intro r t h
    unfold run_check_cycle at h
    by_cases he : c.chat_ids.isEmpty
    · rw [if_pos he] at h
      simp only [Prod.mk.injEq, Except.ok.injEq] at h
      rw [← h.2]
      have he2 : c.chat_ids = [] := by simpa using he
      simp [expectedTrace, he2]
    · rw [if_neg he] at h
      cases hp : processUsers c c.chat_ids {} with
      | mk st e? =>
        rw [hp] at h
        cases e? with
        | none =>
          dsimp only at h
          simp only [Prod.mk.injEq, Except.ok.injEq] at h
          rw [← h.2]
          have h2 := processUsers_trace_none c c.chat_ids _ _ hp
          simpa [expectedTrace] using h2
        | some e =>
          dsimp only at h
          simp at h

/-- C8 counterexample: user 1 is processed (its preferences load) and the
JFK-SFO route is among its preferences, yet the provider is never invoked
for that route — the cycle aborts on the first route's mapping failure,
so the claim's universal coverage fails as stated. -/
theorem run_check_cycle_skips_sibling_route :
    collabC8.load 1 = Except.ok prefsTwoRoutes ∧
    ({ origin := "JFK", destination := "SFO" } : Route) ∈ prefsTwoRoutes.routes ∧
    searchParamsFor prefsTwoRoutes { origin := "JFK", destination := "SFO" } ∉
      (run_check_cycle collabC8).2 := by
  refine ⟨rfl, by decide, ?_⟩
  have hrun : (run_check_cycle collabC8).2 =
      [searchParamsFor prefsTwoRoutes { origin := "JFK", destination := "LAX" }] := rfl
  rw [hrun]
  decide

/-- Witness for the amended C8 theorem at a concrete input: the completed
cycle's trace is exactly the expected one invocation. -/
theorem run_check_cycle_provider_invocations_witness :
    [searchParamsFor samplePrefs { origin := "JFK", destination := "LAX" }] =
      expectedTrace collabOkTrace :=
  (run_check_cycle_provider_invocations collabOkTrace).2
    { users_checked := 1, routes_searched := 1, flights_found := 0,
      deals_matched := 0, notifications_sent := 0, errors := 0 }
    [searchParamsFor samplePrefs { origin := "JFK", destination := "LAX" }] rfl

/-! ## C10: the fees list is optional -/

theorem fees_foldl (l : List RawFee) (init : ℚ) :
    l.foldl (fun acc fee => acc + fee.amount) init =
      init + (l.map RawFee.amount).sum := by
  induction l generalizing init with
  | nil => simp
  | cons a t ih => simp [ih]; ring

/-- C10: the mapper treats the raw price's `fees` key as optional — an
offer without the key maps exactly as one with an empty fees list (so its
aggregate fees are `Decimal("0")`), and whenever mapping succeeds the
aggregate fees are the exact decimal sum of the fee-line amounts
(`getD []` makes the absent-key sum `0`). -/
theorem amadeus_to_flight_offer_fees_optional :
    (∀ raw : RawOffer, raw.price.fees = none →
      amadeus_to_flight_offer raw =
        amadeus_to_flight_offer
          { raw with price := { raw.price with fees := some [] } }) ∧
    (∀ (raw : RawOffer) (offer : FlightOffer),
      amadeus_to_flight_offer raw = Except.ok offer →
      offer.price.fees = ((raw.price.fees.getD []).map RawFee.amount).sum) := by
  constructor
  · intro raw hf
    cases raw with
    | mk i its pr va =>
      cases pr with
      | mk cur tot b fe =>
        dsimp only at hf
        subst hf
        rfl
  · intro raw offer h
    unfold amadeus_to_flight_offer at h
    cases hm : raw.itineraries.mapM mapItinerary with
    | error e => rw [hm] at h; exact absurd h (by simp)
    | ok itins =>
      rw [hm] at h
      dsimp only at h
      cases hva : raw.validatingAirlineCodes with
      | nil => rw [hva] at h; exact absurd h (by simp)
      | cons va rest =>
        rw [hva] at h
        dsimp only at h
        by_cases hie : itins.isEmpty
        · rw [if_pos hie] at h; exact absurd h (by simp)
        · rw [if_neg hie] at h
          simp only [Except.ok.injEq] at h
          rw [← h]
          dsimp only
          rw [fees_foldl]
          simp

/-- Witness for C10 at a concrete input: the fees-less raw offer maps
successfully and its aggregate fees value is the (empty) sum `0`. -/
theorem amadeus_to_flight_offer_fees_optional_witness :
    offerGood.price.fees =
      ((rawOfferNoFees.price.fees.getD []).map RawFee.amount).sum :=
  amadeus_to_flight_offer_fees_optional.2 rawOfferNoFees offerGood rfl

end Raton
